import Mathlib

/-!
Shallow embedding of the authorization and quote-lifecycle core of the
multi-tenant sales-quote management application, together with theorems
settling the specification claims about it.

The embedded functions follow the TypeScript source:
* `getPermissions`, `canPerformQuoteAction` — `src/lib/supabase.ts`
  (`src/unnamed/part_002`);
* `getInitialStatus`, `handleStatusChange` and the list-view action guards —
  `src/project/src/pages/Quotes.tsx`;
* the modal action guards (`canSubmitForApproval`, `canApprove`, `canReject`,
  `canSend`, `canEdit`, `canDelete`) —
  `src/project/src/components/quotes/QuoteViewModal.tsx`;
* the session/membership store (`signIn`, `signOut`, `fetchUserData`,
  `switchOrganization`, `bootstrap`) — `src/stores/authStore.ts`
  (`src/unnamed/part_000`) and the `get_user_organizations` SQL function
  (`supabase/migrations/20250628194516_peaceful_river.sql`).
-/

namespace QuoteApp

/-- Quote lifecycle status (TS union type `Quote['status']`, `types/index.ts`). -/
inductive Status where
  | draft
  | pending_approval
  | approved
  | rejected
  | sent
deriving DecidableEq, Repr

/-- Application-level user record.  The runtime row of the `users` table keeps a
legacy `role` column (the drop in migration `20250628194516` is commented out),
and `Quotes.tsx` / `QuoteViewModal.tsx` read `user?.role` from it, so the
embedding carries it alongside the `types/index.ts` fields. -/
structure User where
  id : String
  email : String
  full_name : String
  role : String
  is_active : Bool
deriving DecidableEq, Repr

/-- Organization record (id and name; the settings bag is irrelevant to the
claims). -/
structure Organization where
  id : String
  name : String
deriving DecidableEq, Repr

/-- Membership row of the `organization_users` table (`OrganizationUser` in
`types/index.ts`).  `joined_at` is modelled as a numeric timestamp. -/
structure OrganizationUser where
  id : String
  user_id : String
  organization_id : String
  role : String
  status : String
  joined_at : Nat
deriving DecidableEq, Repr

/-- A row returned by the `get_user_organizations` SQL function
(`UserOrganization` in `types/index.ts`). -/
structure UserOrganization where
  organization_id : String
  organization_name : String
  user_role : String
  user_status : String
  joined_at : Nat
deriving DecidableEq, Repr

/-- Capability set (`Permission` in `types/index.ts`). -/
structure Permission where
  can_create_quotes : Bool
  can_approve_quotes : Bool
  can_send_quotes : Bool
  can_manage_products : Bool
  can_manage_clients : Bool
  can_view_dashboard : Bool
  can_manage_users : Bool
  can_view_audit_logs : Bool
deriving DecidableEq, Repr

/-- Embeds `getPermissions` from `src/lib/supabase.ts`: the role→capability table with
`permissions[role] || permissions.agent` fallback for unknown role strings. -/
def getPermissions (role : String) : Permission :=
  match role with
  | "admin" =>
      { can_create_quotes := true, can_approve_quotes := true
        can_send_quotes := true, can_manage_products := true
        can_manage_clients := true, can_view_dashboard := true
        can_manage_users := true, can_view_audit_logs := true }
  | "manager" =>
      { can_create_quotes := true, can_approve_quotes := true
        can_send_quotes := true, can_manage_products := true
        can_manage_clients := true, can_view_dashboard := true
        can_manage_users := false, can_view_audit_logs := true }
  | "agent" =>
      { can_create_quotes := true, can_approve_quotes := false
        can_send_quotes := false, can_manage_products := false
        can_manage_clients := false, can_view_dashboard := true
        can_manage_users := false, can_view_audit_logs := false }
  | _ =>
      { can_create_quotes := true, can_approve_quotes := false
        can_send_quotes := false, can_manage_products := false
        can_manage_clients := false, can_view_dashboard := true
        can_manage_users := false, can_view_audit_logs := false }

/-- Quote record (`Quote` in `types/index.ts`; line items and the joined client
record are dropped, monetary fields kept as integers since no claim computes
with them). -/
structure Quote where
  id : String
  quote_number : String
  client_id : String
  status : Status
  subtotal : Int
  discount_amount : Int
  tax_amount : Int
  total_amount : Int
  valid_until : String
  terms_conditions : Option String
  notes : Option String
  created_by : String
  approved_by : Option String
  sent_at : Option String
  organization_id : String
deriving DecidableEq, Repr

/-- The six quote actions accepted by `canPerformQuoteAction`. -/
inductive QuoteAction where
  | create
  | edit
  | approve
  | reject
  | send
  | delete
deriving DecidableEq, Repr

/-- Embeds `canPerformQuoteAction` from `src/lib/supabase.ts`: the central action
authorizer.  (The TS `default: return false` arm is unreachable once the action
argument is the closed enumeration above.) -/
def canPerformQuoteAction (action : QuoteAction) (quote : Quote)
    (userRole : String) (userId : String) : Bool :=
  match action with
  | .create => (getPermissions userRole).can_create_quotes
  | .edit =>
      quote.status == .draft &&
        (quote.created_by == userId || userRole != "agent")
  | .approve =>
      (getPermissions userRole).can_approve_quotes &&
        quote.status == .pending_approval
  | .reject =>
      (getPermissions userRole).can_approve_quotes &&
        quote.status == .pending_approval
  | .send =>
      (getPermissions userRole).can_send_quotes && quote.status == .approved
  | .delete => quote.created_by == userId || userRole == "admin"

/-- Embeds `getInitialStatus` from `Quotes.tsx` (lines 172–180): the status a freshly
created quote receives, branching on the creator's `user?.role`. -/
def getInitialStatus (user : Option User) : Status :=
  if user.map (·.role) == some "agent" then
    .draft
  else if user.map (·.role) == some "manager"
      || user.map (·.role) == some "admin" then
    .approved
  else
    .draft

/-- The status chosen in `onSubmit` (`Quotes.tsx` line 192):
`editingQuote?.status || getInitialStatus()` — an edit keeps the existing
status, a fresh creation consults `getInitialStatus`. -/
def createQuoteStatus (editingQuote : Option Quote) (user : Option User) :
    Status :=
  match editingQuote with
  | some q => q.status
  | none => getInitialStatus user

/-- JavaScript truthiness of the optional rejection-reason string: `undefined`
and the empty string are falsy. -/
def reasonGiven : Option String → Bool
  | none => false
  | some s => s != ""

/-- The quote-row update built by `handleStatusChange` (`Quotes.tsx` lines
283–296), applied to the quote: sets `status`; on `approved` (with a signed-in
user) records `approved_by`; on `sent` records `sent_at`; on `rejected` with a
truthy reason appends `"Rejected: " ++ reason` to the notes, separated from
existing notes by a blank line. -/
def applyStatusChange (q : Quote) (newStatus : Status)
    (userId : Option String) (reason : Option String) (now : String) : Quote :=
  let q1 : Quote := { q with status := newStatus }
  let q2 : Quote :=
    if newStatus == .approved && userId.isSome then
      { q1 with approved_by := userId }
    else if newStatus == .sent then
      { q1 with sent_at := some now }
    else q1
  if newStatus == .rejected && reasonGiven reason then
    let existingNotes := q.notes.getD ""
    { q2 with
        notes := some (existingNotes
          ++ (if existingNotes != "" then "\n\n" else "")
          ++ "Rejected: " ++ reason.getD "") }
  else q2

/-! ### Action guards at the two UI call sites

`QuoteViewModal.tsx` lines 93–98 compute the per-quote action guards from the
signed-in user (`user?.id`, `user?.role`) and the derived capability set;
`Quotes.tsx` lines 732, 742, 764 and 790 inline a second set of guards for the
list view. -/

/-- Embeds `canSubmitForApproval` (`QuoteViewModal.tsx` line 93). -/
def canSubmitForApproval (q : Quote) (user : User) : Bool :=
  q.status == .draft && (q.created_by == user.id || user.role != "agent")

/-- Embeds `canApprove` (`QuoteViewModal.tsx` line 94). -/
def canApprove (q : Quote) (perms : Permission) : Bool :=
  perms.can_approve_quotes && q.status == .pending_approval

/-- Embeds `canReject` (`QuoteViewModal.tsx` line 95). -/
def canReject (q : Quote) (perms : Permission) : Bool :=
  perms.can_approve_quotes && q.status == .pending_approval

/-- Embeds `canSend` (`QuoteViewModal.tsx` line 96). -/
def canSend (q : Quote) (perms : Permission) : Bool :=
  perms.can_send_quotes && q.status == .approved

/-- Embeds `canEdit` (`QuoteViewModal.tsx` line 97). -/
def canEdit (q : Quote) (user : User) : Bool :=
  q.status == .draft && (q.created_by == user.id || user.role != "agent")

/-- Embeds `canDelete` (`QuoteViewModal.tsx` line 98). -/
def canDelete (q : Quote) (user : User) : Bool :=
  q.created_by == user.id || user.role == "admin"

/-- Guard of the list-view "Submit for approval" button
(`Quotes.tsx` line 732): shown for every draft, with no ownership or role
check. -/
def listSubmitShown (q : Quote) : Bool :=
  q.status == .draft

/-- Guard of the list-view "Edit quote" button (`Quotes.tsx` line 790):
likewise only the draft-status check. -/
def listEditShown (q : Quote) : Bool :=
  q.status == .draft

/-! ### The guarded lifecycle transition

The application performs a lifecycle transition by rendering an action button
only when their guard holds and invoking `handleStatusChange` on click.  The
four triggers below pair the quote-view-modal guard with the
`handleStatusChange` update; a request whose guard fails never reaches the
write and is surfaced as the spec's `IllegalTransition` failure. -/

inductive Trigger where
  | submitForApproval
  | approve
  | reject
  | markSent
deriving DecidableEq, Repr

/-- The target status each trigger passes to `handleStatusChange`. -/
def triggerTarget : Trigger → Status
  | .submitForApproval => .pending_approval
  | .approve => .approved
  | .reject => .rejected
  | .markSent => .sent

/-- The quote-view-modal guard for each trigger (`QuoteViewModal.tsx`
lines 93–96). -/
def triggerAllowed (t : Trigger) (q : Quote) (user : User)
    (perms : Permission) : Bool :=
  match t with
  | .submitForApproval => canSubmitForApproval q user
  | .approve => canApprove q perms
  | .reject => canReject q perms
  | .markSent => canSend q perms

inductive TransitionError where
  | IllegalTransition
deriving DecidableEq, Repr

/-- The guarded transition: guard from the quote view modal, update from
`handleStatusChange`.  A denied request performs no write. -/
def handleTrigger (t : Trigger) (q : Quote) (user : User) (perms : Permission)
    (reason : Option String) (now : String) : Except TransitionError Quote :=
  if triggerAllowed t q user perms then
    .ok (applyStatusChange q (triggerTarget t) (some user.id) reason now)
  else
    .error .IllegalTransition

/-- The stored quote after a transition request: updated on success, untouched
on denial. -/
def quoteAfterTrigger (t : Trigger) (q : Quote) (user : User)
    (perms : Permission) (reason : Option String) (now : String) : Quote :=
  match handleTrigger t q user perms reason now with
  | .ok q' => q'
  | .error _ => q

/-- The list-view "Submit for approval" path (`Quotes.tsx` lines 732–739):
guard `quote.status === 'draft'` only, then
`handleStatusChange(quote.id, 'pending_approval')` with no reason. -/
def listViewSubmit (q : Quote) (user : User) : Except TransitionError Quote :=
  if listSubmitShown q then
    .ok (applyStatusChange q .pending_approval (some user.id) none "")
  else
    .error .IllegalTransition

/-! ### Session/membership store (`src/stores/authStore.ts`)

The backend is modelled as an immutable `Database` of rows plus flags that
inject transient fetch failures (a supabase query answering with an `error`
object); the store state carries the five zustand fields together with the
`currentOrganizationId` localStorage key. -/

inductive AuthError where
  | InvalidCredentials
  | OrganizationUnavailable
deriving DecidableEq, Repr

/-- Outcome of the best-effort remote session revoke inside `signOut`:
no client configured, success, an `error` result, or a thrown exception. -/
inductive RemoteRevoke where
  | noClient
  | succeeded
  | failed
  | threw
deriving DecidableEq, Repr

/-- Backend model: the relevant tables, plus failure-injection flags for the
three remote reads the claims exercise (`users` select in `fetchUserData`,
the `get_user_organizations` RPC, and the organization select in
`switchOrganization`). -/
structure Database where
  users : List User
  organizations : List Organization
  memberships : List OrganizationUser
  usersFetchError : Bool
  orgsRpcError : Bool
  orgFetchError : Bool
deriving Repr

/-- Store state (`AuthState` in `authStore.ts`) plus the persisted
`currentOrganizationId` localStorage key. -/
structure AuthState where
  user : Option User
  organization : Option Organization
  currentOrgMembership : Option OrganizationUser
  userOrganizations : List UserOrganization
  permissions : Option Permission
  loading : Bool
  persistedOrgId : Option String
deriving DecidableEq, Repr

/-- The zustand store's initial state. -/
def initialState : AuthState :=
  { user := none, organization := none, currentOrgMembership := none
    userOrganizations := [], permissions := none, loading := true
    persistedOrgId := none }

/-- Embeds `signOut` (`authStore.ts` lines 229–261): the remote revoke outcome is
logged and otherwise ignored; the local fields and the persisted organization
id are cleared unconditionally (the `loading` flag is not touched). -/
def signOut (st : AuthState) (remote : RemoteRevoke) : AuthState :=
  match remote with
  | _ =>
      { user := none, organization := none, currentOrgMembership := none
        userOrganizations := [], permissions := none, loading := st.loading
        persistedOrgId := none }

/-- Insertion into a list sorted by `joined_at` ascending. -/
def insertByJoined (m : OrganizationUser) :
    List OrganizationUser → List OrganizationUser
  | [] => [m]
  | x :: xs =>
      if m.joined_at ≤ x.joined_at then m :: x :: xs
      else x :: insertByJoined m xs

/-- Insertion sort by `joined_at` ascending, modelling the SQL
`ORDER BY ou.joined_at ASC`. -/
def sortByJoined : List OrganizationUser → List OrganizationUser
  | [] => []
  | x :: xs => insertByJoined x (sortByJoined xs)

/-- The `get_user_organizations` SQL function
(migration `20250628194516_peaceful_river.sql`): the identity's memberships
with `status = 'active'`, inner-joined with `organizations`, ordered by
`joined_at` ascending. -/
def getUserOrganizations (db : Database) (userId : String) :
    List UserOrganization :=
  let active := db.memberships.filter
    (fun m => m.user_id == userId && m.status == "active")
  (sortByJoined active).filterMap (fun m =>
    (db.organizations.find? (fun o => o.id == m.organization_id)).map
      (fun o =>
        { organization_id := m.organization_id
          organization_name := o.name
          user_role := m.role
          user_status := m.status
          joined_at := m.joined_at }))

/-- Embeds `switchOrganization` (`authStore.ts` lines 312–355): load the organization
record and the caller's `status = 'active'` membership row; if either read
errors (missing row, or an injected fetch failure) the error is rethrown —
surfaced here as `OrganizationUnavailable` — and nothing is written; on
success the organization id is persisted and the organization, membership and
derived capability set are installed. -/
def switchOrganization (db : Database) (st : AuthState)
    (organizationId : String) : Except AuthError AuthState :=
  if db.orgFetchError then .error .OrganizationUnavailable
  else
    match db.organizations.find? (fun o => o.id == organizationId) with
    | none => .error .OrganizationUnavailable
    | some orgData =>
        match db.memberships.find? (fun m =>
            some m.user_id == st.user.map (·.id)
              && m.organization_id == organizationId
              && m.status == "active") with
        | none => .error .OrganizationUnavailable
        | some membershipData =>
            .ok { st with
                    organization := some orgData
                    currentOrgMembership := some membershipData
                    permissions := some (getPermissions membershipData.role)
                    persistedOrgId := some organizationId }

/-- The store state after a `switchOrganization` call: updated on success,
the previous state on failure. -/
def stateAfterSwitch (db : Database) (st : AuthState)
    (organizationId : String) : AuthState :=
  match switchOrganization db st organizationId with
  | .ok st' => st'
  | .error _ => st

/-- Embeds `fetchUserData` (`authStore.ts` lines 263–310).  Every failure inside it is
caught and only logged, so the function always returns a state: an errored
users select or organizations RPC leaves the state as it stood (note the store
is only written *after* the organizations RPC succeeds); a missing profile
row forces `signOut`; a failing `switchOrganization` is caught after the user
and organization list have been stored.

`selectTargetOrgId` is the `targetOrgId` expression of `fetchUserData`
(`authStore.ts` lines 298–301): the saved localStorage id if it occurs in the
fetched organization list, else the first fetched organization, else none. -/
def selectTargetOrgId (persisted : Option String)
    (orgs : List UserOrganization) : Option String :=
  match persisted with
  | some savedOrgId =>
      if (orgs.find? (fun o => o.organization_id == savedOrgId)).isSome then
        some savedOrgId
      else orgs.head?.map (·.organization_id)
  | none => orgs.head?.map (·.organization_id)

def fetchUserData (db : Database) (st : AuthState) (userId : String) :
    AuthState :=
  if db.usersFetchError then st
  else
    match db.users.find? (fun u => u.id == userId) with
    | none => signOut st .succeeded
    | some userData =>
        if db.orgsRpcError then st
        else
          let orgs := getUserOrganizations db userId
          let st1 : AuthState :=
            { st with user := some userData, userOrganizations := orgs }
          match selectTargetOrgId st.persistedOrgId orgs with
          | none => st1
          | some t =>
              match switchOrganization db st1 t with
              | .ok st2 => st2
              | .error _ => st1

/-- Embeds `signIn` (`authStore.ts` lines 30–55): `auth` is the identity resolved by
`signInWithPassword` (`none` = invalid credentials, thrown to the caller).
The `last_login` update's result is discarded by the code; on success
`fetchUserData` runs and `signIn` resolves with whatever state it produced. -/
def signIn (db : Database) (st : AuthState) (auth : Option String) :
    Except AuthError AuthState :=
  match auth with
  | none => .error .InvalidCredentials
  | some userId => .ok (fetchUserData db st userId)

/-- Embeds `initialize` (`authStore.ts` lines 418–468) with a configured backend:
restore the remote session if present, run `fetchUserData` for it, and clear
the `loading` flag in all cases. -/
def bootstrap (db : Database) (session : Option String)
    (persisted : Option String) : AuthState :=
  match session with
  | none => { initialState with persistedOrgId := persisted, loading := false }
  | some userId =>
      let st := fetchUserData db
        { initialState with persistedOrgId := persisted } userId
      { st with loading := false }

/-! ### Sample records used by witnesses and counterexamples -/

/-- A draft quote created by user `u1`. -/
def sampleDraft : Quote :=
  { id := "q1"
    quote_number := "Q-2026-001"
    client_id := "c1"
    status := .draft
    subtotal := 100
    discount_amount := 0
    tax_amount := 18
    total_amount := 118
    valid_until := "2026-11-01"
    terms_conditions := none
    notes := none
    created_by := "u1"
    approved_by := none
    sent_at := none
    organization_id := "o1" }

/-- An agent who did not create `sampleDraft`. -/
def otherAgent : User :=
  { id := "u2", email := "u2@example.com", full_name := "Other Agent"
    role := "agent", is_active := true }

/-- A manager user. -/
def someManager : User :=
  { id := "u3", email := "u3@example.com", full_name := "Some Manager"
    role := "manager", is_active := true }

/-- An admin user. -/
def someAdmin : User :=
  { id := "u4", email := "u4@example.com", full_name := "Some Admin"
    role := "admin", is_active := true }

/-- An agent user, creator of `sampleDraft`. -/
def creatorAgent : User :=
  { id := "u1", email := "u1@example.com", full_name := "Creator Agent"
    role := "agent", is_active := true }

/-! ### Theorems for the claims -/

/-- C2: at quote creation the initial status branches on the creator's role —
a quote created by an `agent` starts in `draft`, one created by a `manager` or
`admin` starts in `approved` (`getInitialStatus`, consumed by `onSubmit` when
no quote is being edited). -/
theorem c2_initial_status_branches_on_creator_role (u : User) :
    (u.role = "agent" → createQuoteStatus none (some u) = .draft) ∧
    ((u.role = "manager" ∨ u.role = "admin") →
      createQuoteStatus none (some u) = .approved) := by
  refine ⟨fun h => ?_, fun h => ?_⟩
  · simp [createQuoteStatus, getInitialStatus, h]
  · rcases h with h | h <;> simp [createQuoteStatus, getInitialStatus, h]

/-- Closed instance of `c2_initial_status_branches_on_creator_role` at the
three concrete roles. -/
theorem c2_initial_status_witness :
    createQuoteStatus none (some creatorAgent) = .draft ∧
    createQuoteStatus none (some someManager) = .approved ∧
    createQuoteStatus none (some someAdmin) = .approved :=
  ⟨(c2_initial_status_branches_on_creator_role creatorAgent).1 rfl,
   (c2_initial_status_branches_on_creator_role someManager).2 (Or.inl rfl),
   (c2_initial_status_branches_on_creator_role someAdmin).2 (Or.inr rfl)⟩

/-- C3: the authorizer returns `true` for `approve` (and likewise `reject`)
exactly when the capability set derived from the actor's role grants
`can_approve_quotes` and the quote is `pending_approval`; in every other
combination it returns `false` (it is a total function and never errors). -/
theorem c3_approve_reject_authorizer_iff (q : Quote) (role userId : String) :
    (canPerformQuoteAction .approve q role userId = true ↔
      (getPermissions role).can_approve_quotes = true ∧
        q.status = .pending_approval) ∧
    (canPerformQuoteAction .reject q role userId = true ↔
      (getPermissions role).can_approve_quotes = true ∧
        q.status = .pending_approval) := by
  constructor <;> simp [canPerformQuoteAction]

/-- C6: the role→capability table returns exactly the spec's table for the
three valid roles and degrades every other role string to the `agent`
capability set (it is a total function of the role string, hence deterministic
and never throws). -/
theorem c6_capabilities_table (r : String) :
    getPermissions "admin" =
      { can_create_quotes := true, can_approve_quotes := true
        can_send_quotes := true, can_manage_products := true
        can_manage_clients := true, can_view_dashboard := true
        can_manage_users := true, can_view_audit_logs := true } ∧
    getPermissions "manager" =
      { can_create_quotes := true, can_approve_quotes := true
        can_send_quotes := true, can_manage_products := true
        can_manage_clients := true, can_view_dashboard := true
        can_manage_users := false, can_view_audit_logs := true } ∧
    getPermissions "agent" =
      { can_create_quotes := true, can_approve_quotes := false
        can_send_quotes := false, can_manage_products := false
        can_manage_clients := false, can_view_dashboard := true
        can_manage_users := false, can_view_audit_logs := false } ∧
    (r ≠ "admin" → r ≠ "manager" → getPermissions r = getPermissions "agent")
    := by
  refine ⟨rfl, rfl, rfl, fun h1 h2 => ?_⟩
  by_cases h3 : r = "agent"
  · rw [h3]
  · unfold getPermissions
    split
    · exact absurd rfl h1
    · exact absurd rfl h2
    · rfl
    · rfl

/-- Closed instance of `c6_capabilities_table`, exercising the fallback arm at
the unknown role string `"owner"`. -/
theorem c6_capabilities_table_witness :
    getPermissions "owner" = getPermissions "agent" :=
  (c6_capabilities_table "owner").2.2.2 (by decide) (by decide)

/-- C9: `signOut` clears all local session state (identity, organization,
membership, organization list, capability set) and removes the persisted
organization id, whatever the remote revoke outcome (success, error result,
thrown exception, or no configured client); its result does not depend on the
remote outcome, and a second `signOut` returns the identical cleared state. -/
theorem c9_signout_unconditional_and_idempotent (st : AuthState)
    (r r' : RemoteRevoke) :
    (signOut st r).user = none ∧
    (signOut st r).organization = none ∧
    (signOut st r).currentOrgMembership = none ∧
    (signOut st r).userOrganizations = [] ∧
    (signOut st r).permissions = none ∧
    (signOut st r).persistedOrgId = none ∧
    signOut st r = signOut st r' ∧
    signOut (signOut st r) r' = signOut st r := by
  simp [signOut]

/-- C5: each transition applies exactly its listed side effect — an allowed
approve sets the status to `approved` and records the approver's identity; an
allowed reject with a non-empty reason sets the status to `rejected` and
appends the reason to the notes behind a `"Rejected: "` marker, separated from
existing notes by a blank line, so the notes end with the marked reason; an
allowed mark-sent sets the status to `sent` and records a non-null sent
timestamp. -/
theorem c5_transition_side_effects (q : Quote) (u : User) (perms : Permission)
    (reason : Option String) (r now : String) :
    (triggerAllowed .approve q u perms = true →
      (quoteAfterTrigger .approve q u perms reason now).status = .approved ∧
      (quoteAfterTrigger .approve q u perms reason now).approved_by
        = some u.id) ∧
    (triggerAllowed .reject q u perms = true → r ≠ "" →
      (quoteAfterTrigger .reject q u perms (some r) now).status = .rejected ∧
      (quoteAfterTrigger .reject q u perms (some r) now).notes =
        some ((q.notes.getD "")
          ++ (if (q.notes.getD "") != "" then "\n\n" else "")
          ++ "Rejected: " ++ r) ∧
      (∃ p, (quoteAfterTrigger .reject q u perms (some r) now).notes =
        some (p ++ "Rejected: " ++ r))) ∧
    (triggerAllowed .markSent q u perms = true →
      (quoteAfterTrigger .markSent q u perms reason now).status = .sent ∧
      (quoteAfterTrigger .markSent q u perms reason now).sent_at = some now ∧
      (quoteAfterTrigger .markSent q u perms reason now).sent_at ≠ none) := by
  refine ⟨fun h => ?_, fun h hr => ?_, fun h => ?_⟩
  · simp [quoteAfterTrigger, handleTrigger, h, triggerTarget, applyStatusChange,
      reasonGiven]
  · refine ⟨?_, ?_, ?_⟩
    · simp [quoteAfterTrigger, handleTrigger, h, triggerTarget,
        applyStatusChange, reasonGiven, hr]
    · simp [quoteAfterTrigger, handleTrigger, h, triggerTarget,
        applyStatusChange, reasonGiven, hr]
    · exact ⟨(q.notes.getD "")
          ++ (if (q.notes.getD "") != "" then "\n\n" else ""),
        by simp [quoteAfterTrigger, handleTrigger, h, triggerTarget,
          applyStatusChange, reasonGiven, hr]⟩
  · simp [quoteAfterTrigger, handleTrigger, h, triggerTarget, applyStatusChange,
      reasonGiven]

/-- Closed instance of `c5_transition_side_effects`: a manager approves one
pending quote, rejects another with reason "budget exceeded" on top of
existing notes "hello", and marks an approved quote sent. -/
theorem c5_transition_side_effects_witness :
    (quoteAfterTrigger .approve
        { sampleDraft with status := .pending_approval } someManager
        (getPermissions "manager") none "T1").approved_by = some "u3" ∧
    (quoteAfterTrigger .reject
        { sampleDraft with status := .pending_approval, notes := some "hello" }
        someManager (getPermissions "manager") (some "budget exceeded")
        "T1").notes = some "hello\n\nRejected: budget exceeded" ∧
    (quoteAfterTrigger .markSent { sampleDraft with status := .approved }
        someAdmin (getPermissions "admin") none "T2").sent_at = some "T2" := by
  refine ⟨?_, ?_, ?_⟩
  · exact ((c5_transition_side_effects
      { sampleDraft with status := .pending_approval } someManager
      (getPermissions "manager") none "x" "T1").1 rfl).2
  · have h := ((c5_transition_side_effects
      { sampleDraft with status := .pending_approval, notes := some "hello" }
      someManager (getPermissions "manager") none "budget exceeded" "T1").2.1
      rfl (by decide)).2.1
    simpa using h
  · exact ((c5_transition_side_effects
      { sampleDraft with status := .approved } someAdmin
      (getPermissions "admin") none "x" "T2").2.2 rfl).2.1

/-- C1 (counterexample): the claim fails on the Quotes-page list view.  The
agent `u2` fails the submit-for-approval precondition on `u1`'s draft
(`canSubmitForApproval` is `false`), yet the list-view submit path — whose
button is shown for every draft — succeeds and changes the quote's status
instead of failing with `IllegalTransition` and leaving the quote
unchanged. -/
theorem c1_list_view_submit_counterexample :
    canSubmitForApproval sampleDraft otherAgent = false ∧
    listViewSubmit sampleDraft otherAgent =
      .ok { sampleDraft with status := .pending_approval } ∧
    ({ sampleDraft with status := .pending_approval } : Quote) ≠ sampleDraft :=
  ⟨rfl, rfl, by decide⟩

/-- C1 (amended): for every transition requested through the quote view modal
(submit for approval, approve, reject, mark sent), if the quote's status is
not the valid from-state for that trigger or the actor fails the trigger's
capability/ownership precondition, the request is denied — surfaced as
`IllegalTransition` — and every field of the quote is left unchanged (no
partial writes).  (The list-view submit path checks only the draft status;
see the counterexample.) -/
theorem c1_modal_denied_transition_leaves_quote_unchanged (t : Trigger)
    (q : Quote) (u : User) (perms : Permission) (reason : Option String)
    (now : String) (h : triggerAllowed t q u perms = false) :
    handleTrigger t q u perms reason now = .error .IllegalTransition ∧
    quoteAfterTrigger t q u perms reason now = q := by
  simp [handleTrigger, quoteAfterTrigger, h]

/-- Closed instance of `c1_modal_denied_transition_leaves_quote_unchanged`:
the agent `u2` asks to approve a draft (wrong from-state and no approve
capability) — denied, quote untouched. -/
theorem c1_modal_denied_transition_witness :
    triggerAllowed .approve sampleDraft otherAgent
      (getPermissions "agent") = false ∧
    handleTrigger .approve sampleDraft otherAgent (getPermissions "agent")
      none "T1" = .error .IllegalTransition ∧
    quoteAfterTrigger .approve sampleDraft otherAgent (getPermissions "agent")
      none "T1" = sampleDraft :=
  ⟨rfl,
   (c1_modal_denied_transition_leaves_quote_unchanged .approve sampleDraft
     otherAgent (getPermissions "agent") none "T1" rfl).1,
   (c1_modal_denied_transition_leaves_quote_unchanged .approve sampleDraft
     otherAgent (getPermissions "agent") none "T1" rfl).2⟩

/-- C4 (counterexample): the claim's "any actor failing this condition is
denied" fails on the Quotes-page list view, where the submit-for-approval and
edit buttons are shown for every draft: the agent `u2` fails the claimed
eligibility condition on `u1`'s draft, yet both actions are offered there. -/
theorem c4_list_view_counterexample :
    listSubmitShown sampleDraft = true ∧
    listEditShown sampleDraft = true ∧
    ¬(sampleDraft.created_by = otherAgent.id ∨ otherAgent.role ≠ "agent") :=
  ⟨rfl, rfl, by decide⟩

/-- C4 (amended): in the quote view modal — and in the central authorizer's
`edit` action — submit-for-approval and edit are permitted exactly when the
quote is a draft and the actor is its creator or has a non-agent role; the
Quotes-page list view, however, gates both buttons on the draft status alone,
so any actor is offered them on any draft. -/
theorem c4_submit_edit_eligibility (q : Quote) (u : User)
    (role userId : String) :
    (canSubmitForApproval q u = true ↔
      (q.status = .draft ∧ (q.created_by = u.id ∨ u.role ≠ "agent"))) ∧
    (canEdit q u = true ↔
      (q.status = .draft ∧ (q.created_by = u.id ∨ u.role ≠ "agent"))) ∧
    (canPerformQuoteAction .edit q role userId = true ↔
      (q.status = .draft ∧ (q.created_by = userId ∨ role ≠ "agent"))) ∧
    (q.status = .draft → listSubmitShown q = true ∧ listEditShown q = true)
    := by
  refine ⟨?_, ?_, ?_, fun h => ?_⟩
  · simp [canSubmitForApproval]
  · simp [canEdit]
  · simp [canPerformQuoteAction]
  · simp [listSubmitShown, listEditShown, h]

/-- Closed instance of `c4_submit_edit_eligibility`: a manager may submit and
edit a draft they did not create, and every draft has the list-view buttons
shown. -/
theorem c4_submit_edit_eligibility_witness :
    canSubmitForApproval sampleDraft someManager = true ∧
    canEdit sampleDraft someManager = true ∧
    canPerformQuoteAction .edit sampleDraft "manager" "u3" = true ∧
    listSubmitShown sampleDraft = true ∧ listEditShown sampleDraft = true := by
  have h := c4_submit_edit_eligibility sampleDraft someManager "manager" "u3"
  refine ⟨h.1.2 ⟨rfl, Or.inr (by decide)⟩, h.2.1.2 ⟨rfl, Or.inr (by decide)⟩,
    h.2.2.1.2 ⟨rfl, Or.inr (by decide)⟩, h.2.2.2 rfl⟩

/-- A small backend used by the store witnesses: one user `u1` with active
memberships in `oA` (admin, joined first) and `oB` (agent, joined second). -/
def sampleDb : Database :=
  { users := [creatorAgent]
    organizations := [{ id := "oA", name := "Acme" }, { id := "oB", name := "Beta" }]
    memberships :=
      [{ id := "m1", user_id := "u1", organization_id := "oA", role := "admin"
         status := "active", joined_at := 1 },
       { id := "m2", user_id := "u1", organization_id := "oB", role := "agent"
         status := "active", joined_at := 2 }]
    usersFetchError := false
    orgsRpcError := false
    orgFetchError := false }

/-- C7: when `switchOrganization` cannot load the organization record or an
active membership for the caller — the read errors, the organization row is
missing, or the id has no active membership for the identity — it fails with
`OrganizationUnavailable`, and the previously active organization, membership,
capability set, and persisted organization id all remain unchanged. -/
theorem c7_switch_failure_leaves_store_unchanged (db : Database)
    (st : AuthState) (orgId : String)
    (h : db.orgFetchError = true ∨
      db.organizations.find? (fun o => o.id == orgId) = none ∨
      db.memberships.find? (fun m =>
        some m.user_id == st.user.map (·.id)
          && m.organization_id == orgId
          && m.status == "active") = none) :
    switchOrganization db st orgId = .error .OrganizationUnavailable ∧
    stateAfterSwitch db st orgId = st ∧
    (stateAfterSwitch db st orgId).organization = st.organization ∧
    (stateAfterSwitch db st orgId).currentOrgMembership
      = st.currentOrgMembership ∧
    (stateAfterSwitch db st orgId).permissions = st.permissions ∧
    (stateAfterSwitch db st orgId).persistedOrgId = st.persistedOrgId := by
  have herr : switchOrganization db st orgId
      = .error .OrganizationUnavailable := by
    rcases h with h | h | h
    · simp [switchOrganization, h]
    · by_cases hf : db.orgFetchError
      · simp [switchOrganization, hf]
      · simp [switchOrganization, hf, h]
    · by_cases hf : db.orgFetchError
      · simp [switchOrganization, hf]
      · cases horg : db.organizations.find? (fun o => o.id == orgId) with
        | none => simp [switchOrganization, hf, horg]
        | some o => simp [switchOrganization, hf, horg, h]
  refine ⟨herr, ?_, ?_, ?_, ?_, ?_⟩ <;> simp [stateAfterSwitch, herr]

/-- Closed instance of `c7_switch_failure_leaves_store_unchanged`: with `oA`
active, user `u1` asks to switch to `oZ`, an id absent from both tables — the
call fails and the state, including the persisted id `oA`, is untouched. -/
theorem c7_switch_failure_witness :
    switchOrganization sampleDb
      { initialState with
          user := some creatorAgent
          organization := some { id := "oA", name := "Acme" }
          persistedOrgId := some "oA" } "oZ"
      = .error .OrganizationUnavailable ∧
    stateAfterSwitch sampleDb
      { initialState with
          user := some creatorAgent
          organization := some { id := "oA", name := "Acme" }
          persistedOrgId := some "oA" } "oZ"
      = { initialState with
          user := some creatorAgent
          organization := some { id := "oA", name := "Acme" }
          persistedOrgId := some "oA" } := by
  have h := c7_switch_failure_leaves_store_unchanged sampleDb
    { initialState with
        user := some creatorAgent
        organization := some { id := "oA", name := "Acme" }
        persistedOrgId := some "oA" } "oZ" (Or.inr (Or.inl (by decide)))
  exact ⟨h.1, h.2.1⟩

/-- C10 (counterexample): the claim fails when the organizations RPC itself
errors.  With a valid profile for `u1` but a failing `get_user_organizations`
call, `signIn` resolves successfully — the error is caught and logged inside
`fetchUserData` — but the store still equals `initialState`, whose `user`
field is `none`: the identity is NOT set, because the store is only written
after the organizations fetch succeeds. -/
theorem c10_orgs_rpc_error_counterexample :
    ({ sampleDb with orgsRpcError := true } : Database).orgsRpcError = true ∧
    (({ sampleDb with orgsRpcError := true } : Database).users.find?
      (fun u => u.id == "u1")).isSome = true ∧
    signIn { sampleDb with orgsRpcError := true } initialState (some "u1")
      = .ok initialState ∧
    initialState.user = none :=
  ⟨rfl, rfl, rfl, rfl⟩

/-- C10 (amended): `signIn` never propagates an organization-load or
organization-activation failure: each such error is caught and logged inside
`fetchUserData` and `signIn` resolves successfully.  When the activation
(`switchOrganization`) fails, the identity and organization list are set
while the active organization, membership, and capability set are left as
they were (null on a fresh sign-in); when the organizations fetch itself
fails, the whole store — the identity included — is left as it was, because
the store is only written after that fetch succeeds. -/
theorem c10_signin_swallows_org_failures (db : Database) (st : AuthState)
    (uid : String) :
    (db.usersFetchError = false → db.orgsRpcError = true →
      (db.users.find? (fun u => u.id == uid)).isSome = true →
      signIn db st (some uid) = .ok st) ∧
    (db.usersFetchError = false → db.orgsRpcError = false →
      db.orgFetchError = true →
      (db.users.find? (fun u => u.id == uid)).isSome = true →
      signIn db st (some uid) = .ok
        { st with
            user := db.users.find? (fun u => u.id == uid)
            userOrganizations := getUserOrganizations db uid }) := by
  constructor
  · intro h1 h2 h3
    obtain ⟨u, hu⟩ := Option.isSome_iff_exists.mp h3
    simp [signIn, fetchUserData, h1, h2, hu]
  · intro h1 h2 h3 h4
    obtain ⟨u, hu⟩ := Option.isSome_iff_exists.mp h4
    cases hsel : selectTargetOrgId st.persistedOrgId
        (getUserOrganizations db uid) with
    | none => simp [signIn, fetchUserData, h1, h2, hu, hsel]
    | some t =>
        simp [signIn, fetchUserData, h1, h2, hu, hsel, switchOrganization, h3]

/-- Closed instance of `c10_signin_swallows_org_failures`, exercising both the
failing organizations RPC and the failing activation on `sampleDb`. -/
theorem c10_signin_swallows_org_failures_witness :
    signIn { sampleDb with orgsRpcError := true } initialState (some "u1")
      = .ok initialState ∧
    signIn { sampleDb with orgFetchError := true } initialState (some "u1")
      = .ok
        { initialState with
            user := ({ sampleDb with orgFetchError := true } : Database).users.find?
              (fun u => u.id == "u1")
            userOrganizations := getUserOrganizations
              { sampleDb with orgFetchError := true } "u1" } :=
  ⟨(c10_signin_swallows_org_failures { sampleDb with orgsRpcError := true }
      initialState "u1").1 rfl rfl rfl,
   (c10_signin_swallows_org_failures { sampleDb with orgFetchError := true }
      initialState "u1").2 rfl rfl rfl rfl⟩

/-! ### Lemmas about membership loading and organization switching -/

theorem mem_insertByJoined {x m : OrganizationUser}
    {l : List OrganizationUser} :
    x ∈ insertByJoined m l ↔ x = m ∨ x ∈ l := by
  induction l with
  | nil => simp [insertByJoined]
  | cons y ys ih =>
      simp only [insertByJoined]
      split
      · simp [List.mem_cons]
      · simp only [List.mem_cons, ih]
        tauto

theorem mem_sortByJoined {x : OrganizationUser} {l : List OrganizationUser} :
    x ∈ sortByJoined l ↔ x ∈ l := by
  induction l with
  | nil => simp [sortByJoined]
  | cons y ys ih => simp [sortByJoined, mem_insertByJoined, ih]

/-- Characterization of the rows produced by `get_user_organizations`: exactly
the joins of an active membership of the identity with its organization
record. -/
theorem mem_getUserOrganizations {db : Database} {uid : String}
    {t : UserOrganization} :
    t ∈ getUserOrganizations db uid ↔
      ∃ m ∈ db.memberships, m.user_id = uid ∧ m.status = "active" ∧
        ∃ o, db.organizations.find? (fun og => og.id == m.organization_id)
            = some o ∧
          t = { organization_id := m.organization_id
                organization_name := o.name
                user_role := m.role
                user_status := m.status
                joined_at := m.joined_at } := by
  unfold getUserOrganizations
  simp only [List.mem_filterMap, mem_sortByJoined, List.mem_filter,
    Bool.and_eq_true, beq_iff_eq, Option.map_eq_some']
  constructor
  · rintro ⟨m, ⟨hmem, hmu, hms⟩, o, hfo, rfl⟩
    exact ⟨m, hmem, hmu, hms, o, hfo, rfl⟩
  · rintro ⟨m, hmem, hmu, hms, o, hfo, rfl⟩
    exact ⟨m, ⟨hmem, hmu, hms⟩, o, hfo, rfl⟩

/-- A successful organization switch records the target id as the persisted
organization choice. -/
theorem switchOrganization_persists {db : Database} {st : AuthState}
    {orgId : String} {st' : AuthState}
    (h : switchOrganization db st orgId = .ok st') :
    st'.persistedOrgId = some orgId := by
  unfold switchOrganization at h
  split at h
  · cases h
  · cases horg : db.organizations.find? (fun o => o.id == orgId) with
    | none => rw [horg] at h; cases h
    | some o =>
        rw [horg] at h
        cases hmem : db.memberships.find? (fun m =>
            some m.user_id == st.user.map (·.id)
              && m.organization_id == orgId
              && m.status == "active") with
        | none => rw [hmem] at h; cases h
        | some m =>
            rw [hmem] at h
            cases h
            rfl

/-- When the reads do not error, the organization row exists and the caller
holds an active membership, `switchOrganization` succeeds and activates an
organization carrying the requested id. -/
theorem switchOrganization_ok_of (db : Database) (st : AuthState)
    (orgId : String) (hflag : db.orgFetchError = false)
    (ho : ∃ o ∈ db.organizations, o.id = orgId)
    (hm : ∃ m ∈ db.memberships, some m.user_id = st.user.map (·.id) ∧
      m.organization_id = orgId ∧ m.status = "active") :
    ∃ st', switchOrganization db st orgId = .ok st' ∧
      ∃ o, st'.organization = some o ∧ o.id = orgId := by
  have h1 : (db.organizations.find? (fun o => o.id == orgId)).isSome := by
    rw [List.find?_isSome]
    obtain ⟨o, hom, hoid⟩ := ho
    exact ⟨o, hom, by simp [hoid]⟩
  obtain ⟨o, hfo⟩ := Option.isSome_iff_exists.mp h1
  have hoid : o.id = orgId := by simpa using List.find?_some hfo
  have h2 : (db.memberships.find? (fun m =>
      some m.user_id == st.user.map (·.id)
        && m.organization_id == orgId
        && m.status == "active")).isSome := by
    rw [List.find?_isSome]
    obtain ⟨m, hmm, hmu, hmo, hms⟩ := hm
    exact ⟨m, hmm, by simp [hmu, hmo, hms]⟩
  obtain ⟨m, hfm⟩ := Option.isSome_iff_exists.mp h2
  refine ⟨{ st with organization := some o
                    currentOrgMembership := some m
                    permissions := some (getPermissions m.role)
                    persistedOrgId := some orgId }, ?_, o, rfl, hoid⟩
  simp [switchOrganization, hflag, hfo, hfm]

/-- Unfolding of `fetchUserData` on the path where the profile is found, the
organizations RPC succeeds, a target is selected and its activation
succeeds. -/
theorem fetchUserData_switch_ok (db : Database) (st : AuthState) (uid : String)
    {u : User} (h1 : db.usersFetchError = false)
    (h2 : db.users.find? (fun x => x.id == uid) = some u)
    (h3 : db.orgsRpcError = false) {t : String}
    (h4 : selectTargetOrgId st.persistedOrgId (getUserOrganizations db uid)
      = some t)
    {st2 : AuthState}
    (h5 : switchOrganization db
      { st with user := some u
                userOrganizations := getUserOrganizations db uid } t
      = .ok st2) :
    fetchUserData db st uid = st2 := by
  simp [fetchUserData, h1, h2, h3, h4, h5]

/-- C8: a successful `switchOrganization X` persists `X`, and a process
restart (`bootstrap` with the persisted choice intact) restores `X` as the
active organization, provided the identity still holds an active membership in
`X` (and the reads succeed); if the persisted id is no longer among the
identity's active memberships, the first organization of the membership list
is selected instead. -/
theorem c8_switch_bootstrap_round_trip (db : Database) (uid X Y : String) :
    (∀ st st', switchOrganization db st X = .ok st' →
      st'.persistedOrgId = some X) ∧
    (db.usersFetchError = false → db.orgsRpcError = false →
      db.orgFetchError = false →
      (∃ u ∈ db.users, u.id = uid) →
      (∃ o ∈ db.organizations, o.id = X) →
      (∃ m ∈ db.memberships, m.user_id = uid ∧ m.organization_id = X ∧
        m.status = "active") →
      ∃ o, (bootstrap db (some uid) (some X)).organization = some o ∧
        o.id = X) ∧
    (db.usersFetchError = false → db.orgsRpcError = false →
      db.orgFetchError = false →
      (∃ u ∈ db.users, u.id = uid) →
      (∀ m ∈ db.memberships, m.user_id = uid → m.status = "active" →
        m.organization_id ≠ Y) →
      ∀ tuo rest, getUserOrganizations db uid = tuo :: rest →
      ∃ o, (bootstrap db (some uid) (some Y)).organization = some o ∧
        o.id = tuo.organization_id) := by
  refine ⟨fun st st' h => switchOrganization_persists h, ?_, ?_⟩
  · intro hf1 hf2 hf3 hu ho hm
    have hus : (db.users.find? (fun x => x.id == uid)).isSome := by
      rw [List.find?_isSome]
      obtain ⟨u, hum, huid⟩ := hu
      exact ⟨u, hum, by simp [huid]⟩
    obtain ⟨u', hufind⟩ := Option.isSome_iff_exists.mp hus
    have hu'id : u'.id = uid := by simpa using List.find?_some hufind
    obtain ⟨m, hmm, hmu, hmo, hms⟩ := hm
    have hfoX : (db.organizations.find?
        (fun og => og.id == m.organization_id)).isSome := by
      rw [List.find?_isSome]
      obtain ⟨o, hom, hoid⟩ := ho
      exact ⟨o, hom, by simp [hoid, hmo]⟩
    obtain ⟨o', hfo'⟩ := Option.isSome_iff_exists.mp hfoX
    have htm : ({ organization_id := m.organization_id
                  organization_name := o'.name
                  user_role := m.role
                  user_status := m.status
                  joined_at := m.joined_at } : UserOrganization)
        ∈ getUserOrganizations db uid :=
      mem_getUserOrganizations.mpr ⟨m, hmm, hmu, hms, o', hfo', rfl⟩
    have hsel : selectTargetOrgId (some X) (getUserOrganizations db uid)
        = some X := by
      have hfind : ((getUserOrganizations db uid).find?
          (fun o => o.organization_id == X)).isSome := by
        rw [List.find?_isSome]
        exact ⟨_, htm, by simp [hmo]⟩
      simp [selectTargetOrgId, hfind]
    obtain ⟨st2, hsw, o2, ho2, ho2id⟩ := switchOrganization_ok_of db
      { initialState with
          persistedOrgId := some X
          user := some u'
          userOrganizations := getUserOrganizations db uid } X hf3 ho
      ⟨m, hmm, by simp [hmu, hu'id], hmo, hms⟩
    have hfud : fetchUserData db
        { initialState with persistedOrgId := some X } uid = st2 :=
      fetchUserData_switch_ok db
        { initialState with persistedOrgId := some X } uid hf1 hufind hf2
        hsel hsw
    refine ⟨o2, ?_, ho2id⟩
    simp [bootstrap, hfud, ho2]
  · intro hf1 hf2 hf3 hu hY tuo rest horgs
    have hus : (db.users.find? (fun x => x.id == uid)).isSome := by
      rw [List.find?_isSome]
      obtain ⟨u, hum, huid⟩ := hu
      exact ⟨u, hum, by simp [huid]⟩
    obtain ⟨u', hufind⟩ := Option.isSome_iff_exists.mp hus
    have hu'id : u'.id = uid := by simpa using List.find?_some hufind
    have hnone : (getUserOrganizations db uid).find?
        (fun o => o.organization_id == Y) = none := by
      rw [List.find?_eq_none]
      intro t ht
      obtain ⟨m, hmm, hmu, hms, o, hfo, rfl⟩ := mem_getUserOrganizations.mp ht
      simpa using hY m hmm hmu hms
    have hsel : selectTargetOrgId (some Y) (getUserOrganizations db uid)
        = some tuo.organization_id := by
      rw [horgs] at hnone
      simp [selectTargetOrgId, hnone, horgs]
    have htuo : tuo ∈ getUserOrganizations db uid := by
      rw [horgs]
      exact List.mem_cons_self _ _
    obtain ⟨m, hmm, hmu, hms, o, hfo, htu⟩ := mem_getUserOrganizations.mp htuo
    have htuo_id : tuo.organization_id = m.organization_id := by rw [htu]
    have homem : o ∈ db.organizations := List.mem_of_find?_eq_some hfo
    have hoid : o.id = m.organization_id := by simpa using List.find?_some hfo
    obtain ⟨st2, hsw, o2, ho2, ho2id⟩ := switchOrganization_ok_of db
      { initialState with
          persistedOrgId := some Y
          user := some u'
          userOrganizations := getUserOrganizations db uid }
      tuo.organization_id hf3
      ⟨o, homem, by rw [hoid, htuo_id]⟩
      ⟨m, hmm, by simp [hmu, hu'id], by rw [htuo_id], hms⟩
    have hfud : fetchUserData db
        { initialState with persistedOrgId := some Y } uid = st2 :=
      fetchUserData_switch_ok db
        { initialState with persistedOrgId := some Y } uid hf1 hufind hf2
        hsel hsw
    refine ⟨o2, ?_, ho2id⟩
    simp [bootstrap, hfud, ho2]

/-- Closed instance of `c8_switch_bootstrap_round_trip` on `sampleDb`:
switching user `u1` to `oB` persists `"oB"`; a restart with that persisted id
restores `oB`; a restart with the stale persisted id `"oZ"` falls back to the
first membership, `oA`. -/
theorem c8_switch_bootstrap_round_trip_witness :
    ({ initialState with
        user := some creatorAgent
        organization := some { id := "oB", name := "Beta" }
        currentOrgMembership := some
          { id := "m2", user_id := "u1", organization_id := "oB"
            role := "agent", status := "active", joined_at := 2 }
        permissions := some (getPermissions "agent")
        persistedOrgId := some "oB" } : AuthState).persistedOrgId
      = some "oB" ∧
    (∃ o, (bootstrap sampleDb (some "u1") (some "oB")).organization = some o ∧
      o.id = "oB") ∧
    (∃ o, (bootstrap sampleDb (some "u1") (some "oZ")).organization = some o ∧
      o.id = ({ organization_id := "oA", organization_name := "Acme"
                user_role := "admin", user_status := "active"
                joined_at := 1 } : UserOrganization).organization_id) := by
  have h := c8_switch_bootstrap_round_trip sampleDb "u1" "oB" "oZ"
  refine ⟨h.1 { initialState with user := some creatorAgent } _ rfl,
    h.2.1 rfl rfl rfl ?_ ?_ ?_,
    h.2.2 rfl rfl rfl ?_ ?_
      { organization_id := "oA", organization_name := "Acme"
        user_role := "admin", user_status := "active", joined_at := 1 }
      [{ organization_id := "oB", organization_name := "Beta"
         user_role := "agent", user_status := "active", joined_at := 2 }]
      ?_⟩
  · exact ⟨creatorAgent, by decide, rfl⟩
  · exact ⟨{ id := "oB", name := "Beta" }, by decide, rfl⟩
  · exact ⟨{ id := "m2", user_id := "u1", organization_id := "oB"
             role := "agent", status := "active", joined_at := 2 },
      by decide, rfl, rfl, rfl⟩
  · exact ⟨creatorAgent, by decide, rfl⟩
  · decide
  · decide

end QuoteApp
